import Mathlib

set_option linter.unusedVariables false

/-!
Verification of `PRPs/scripts/prp_runner.py`.

The Python program is shallowly embedded: pure helpers become Lean
functions on `String` / `List Char`; the effectful parts (`run_model`,
`main`) become functions from an explicit environment (`Env`, modelling
PATH lookup, subprocess execution, the filesystem and the JSON codec of
the standard library) to a trace of observable events (`Ev`) together
with a termination result (`PyResult`).
-/

namespace PrpRunner

/-- Python `str.splitlines` restricted to the common line boundaries
`"\n"`, `"\r\n"`, `"\r"` (the exotic Unicode boundaries Python also
recognises are not modelled; no claim depends on them).  As in Python, a
trailing line boundary does not produce a final empty line and the empty
string yields no lines. -/
def pySplitlines : List Char → List (List Char)
  | [] => []
  | '\r' :: '\n' :: rest => [] :: pySplitlines rest
  | c :: rest =>
    if c = '\n' ∨ c = '\r' then [] :: pySplitlines rest
    else
      match pySplitlines rest with
      | [] => [[c]]
      | g :: gs => (c :: g) :: gs

/-- The ASCII whitespace characters stripped by Python `str.strip()`. -/
def isPySpace (c : Char) : Bool :=
  c = ' ' || c = '\t' || c = '\n' || c = '\r' || c = '\x0b' || c = '\x0c'

/-- Python `str.strip()` on a character list: drop leading and trailing
whitespace. -/
def pyStripL (l : List Char) : List Char :=
  ((l.dropWhile isPySpace).reverse.dropWhile isPySpace).reverse

/-- Python `str.strip()` on strings. -/
def pyStrip (s : String) : String :=
  String.mk (pyStripL s.data)

/-- Python `" ".join(...)` on character lists. -/
def joinSp : List (List Char) → List Char
  | [] => []
  | [g] => g
  | g :: gs => g ++ ' ' :: joinSp gs

/-- The prompt flattening performed by `_build_cmd_codex`
(`prp_runner.py` lines 114 and 118):
`" ".join(line.strip() for line in prompt.splitlines()).strip()`. -/
def flattenPrompt (prompt : String) : String :=
  String.mk (pyStripL (joinSp ((pySplitlines prompt.data).map pyStripL)))

/-- The spec's words for the flattened prompt, "the whitespace-joined,
trimmed lines of the original": split into lines, trim each line, join
with single spaces, trimmed.  Stated separately from `flattenPrompt` so
the two can be compared. -/
def whitespaceJoinedTrimmedLines (prompt : String) : String :=
  String.mk (pyStripL (joinSp ((pySplitlines prompt.data).map pyStripL)))

/-- `META_HEADER` from `prp_runner.py` lines 37-70, verbatim. -/
def META_HEADER : String := "Ingest and understand the Product Requirement Prompt (PRP) below in detail.

    # WORKFLOW GUIDANCE:

    ## Planning Phase
    - Think hard before you code. Create a comprehensive plan addressing all requirements.
    - Break down complex tasks into smaller, manageable steps.
    - Use the TodoWrite tool to create and track your implementation plan.
    - Identify implementation patterns from existing code to follow.

    ## Implementation Phase
    - Follow code conventions and patterns found in existing files.
    - Implement one component at a time and verify it works correctly.
    - Write clear, maintainable code with appropriate comments.
    - Consider error handling, edge cases, and potential security issues.
    - Use type hints to ensure type safety.

    ## Testing Phase
    - Test each component thoroughly as you build it.
    - Use the provided validation gates to verify your implementation.
    - Verify that all requirements have been satisfied.
    - Run the project tests when finished and output \"DONE\" when they pass.

    ## Example Implementation Approach:
    1. Analyze the PRP requirements in detail
    2. Search for and understand existing patterns in the codebase
    3. Search the Web and gather additional context and examples
    4. Create a step-by-step implementation plan with TodoWrite
    5. Implement core functionality first, then additional features
    6. Test and validate each component
    7. Ensure all validation gates pass

    ***When you are finished, move the completed PRP to the PRPs/completed folder***
    "

/-- `build_prompt` (lines 73-74).  `readText` models `Path.read_text`. -/
def build_prompt (readText : String → String) (prp_path : String) : String :=
  META_HEADER ++ readText prp_path

/-- `_build_cmd_codex` (lines 105-119).  Both branches of the source
compute the same command, so the embedding keeps the `if` with identical
arms. -/
def _build_cmd_codex (interactive : Bool) (output_format : String)
    (cli : String) (prompt : String) : List String :=
  if interactive then
    [cli, flattenPrompt prompt]
  else
    [cli, flattenPrompt prompt]

/-- The allowed-tools value passed by `_build_cmd_claude` (lines 127 and
134). -/
def allowedToolsValue : String :=
  "Edit,Bash,Write,MultiEdit,NotebookEdit,WebFetch,Agent,LS,Grep,Read,NotebookRead,TodoRead,TodoWrite,WebSearch"

/-- `_build_cmd_claude` (lines 122-137). -/
def _build_cmd_claude (interactive : Bool) (output_format : String)
    (cli : String) (prompt : String) : List String :=
  if interactive then
    [cli, "--allowedTools", allowedToolsValue]
  else
    [cli, "-p", prompt, "--allowedTools", allowedToolsValue,
      "--output-format", output_format]

/-- JSON values, modelling the Python objects handled by `json.loads` /
`json.dumps`.  The float `0.0` appearing in the no-op canned responses is
represented by `num 0` (no claim depends on float formatting). -/
inductive JVal where
  | str (s : String)
  | num (n : Int)
  | bool (b : Bool)
  | null
  | arr (xs : List JVal)
  | obj (fields : List (String × JVal))

/-- Python `dict.get` on a JSON object (`none` models Python `None`,
both for a missing key and for a non-dict receiver). -/
def jGetField (v : JVal) (k : String) : Option JVal :=
  match v with
  | .obj fields => fields.lookup k
  | _ => none

/-- The condition guarding the headless-json summary block (line 358):
`isinstance(json_data, dict) and json_data.get("type") == "result"`. -/
def isResultDict (v : JVal) : Bool :=
  match v with
  | .obj _ =>
    match jGetField v "type" with
    | some (.str s) => s == "result"
    | _ => false
  | _ => false

/-- Observable events of a run, in program order: a line printed to
stdout, a line printed to stderr, a working-directory change, a file
read, a child-process launch attempt, and a file write (the diagnostic
trace file).  Each `out`/`err` event is one `print` call (the trailing
newline Python appends is implicit). -/
inductive Ev where
  | out (s : String)
  | err (s : String)
  | chdir (path : String)
  | fsRead (path : String)
  | spawn (cmd : List String)
  | fileWrite (path : String)
deriving DecidableEq, Repr

/-- How a Python function run terminates: a normal return, `sys.exit`
with an integer code, `sys.exit` with a message (Python prints the
message and exits with status 1), or an uncaught exception of the named
class. -/
inductive PyResult where
  | ret
  | exit (code : Int)
  | exitMsg (msg : String)
  | exc (excName : String)
deriving DecidableEq, Repr

/-- Outcome of launching a child process: it ran and exited
(`returncode`, stdout as the lines iterated by `for line in
process.stdout`, stdout as one captured string, captured stderr text),
or the launch raised `FileNotFoundError`, or it raised another
`OSError` with message `msg`. -/
inductive ChildRes where
  | ok (returncode : Int) (stdoutLines : List String) (stdout : String) (stderr : String)
  | fileNotFound
  | osError (msg : String)

/-- The environment a run interacts with.  `which` models
`shutil.which`; `psResolve` models the Windows PowerShell `Get-Command`
loop of lines 199-212 (its result is the first candidate whose path
exists, or `none`); `exec` models launching a command; `parseJson` and
`dumps` model `json.loads` / `json.dumps`; `progress` models the
per-message stderr progress block of lines 280-313 and `jsonSummary` the
summary block of lines 359-374 (both blocks only format message fields
into text, which is abstracted as an environment function because it
involves Python float formatting); `pathExists` and `readText` model the
filesystem; `scriptPath` is `__file__` after `resolve()`. -/
structure Env where
  which : String → Option String
  isWindows : Bool
  psResolve : String → Option String
  exec : List String → ChildRes
  parseJson : String → Option JVal
  dumps : JVal → String
  progress : JVal → List String
  jsonSummary : JVal → List String
  pathExists : String → Bool
  readText : String → String
  scriptPath : String

/-- Python `str.lower`, used on the driver name (line 147); character-wise
ASCII lowering on the underlying character list. -/
def pyLower (s : String) : String := String.mk (s.data.map Char.toLower)

/-- Warning printed when resolution fails for a real driver (line 217). -/
def cliNotFoundMsg (cli : String) : String :=
  "CLI executable not found: '" ++ cli ++ "'. Falling back to local 'noop' driver."

/-- Message of the `sys.exit` for an unknown driver (line 236). -/
def unknownDriverMsg (d : String) : String :=
  "Unknown driver: " ++ d ++ " (expected 'codex' or 'claude')"

/-- Warning printed when the interactive launch raises
`FileNotFoundError` (line 244). -/
def interactiveNotFoundMsg (c : String) : String :=
  "Interactive CLI '" ++ c ++ "' not found. Falling back to local 'noop' driver."

/-- Warning printed when the interactive launch raises another
`OSError` (line 257). -/
def interactiveOsMsg (e : String) : String :=
  "Interactive launch failed: " ++ e ++ ". Falling back to headless text run."

/-- Warning printed when the headless json launch raises
`FileNotFoundError` (line 337). -/
def headlessNotFoundMsg (c : String) : String :=
  "Headless CLI '" ++ c ++ "' not found. Falling back to local 'noop' driver."

/-- Diagnostic printed when the child exits non-zero in the stream-json
and json modes (lines 321 and 349). -/
def runnerFailedMsg (rc : Int) : String :=
  "Runner failed with exit code " ++ toString rc

/-- The marker string of the no-op driver (line 150). -/
def noopMarker : String := "PRP TEST OK"

/-- The canned stream-json events of the no-op driver (lines 158-170). -/
def noopStreamEvents : List JVal :=
  [ .obj [("type", .str "system"), ("subtype", .str "init"),
      ("session_id", .str "noop-session")],
    .obj [("type", .str "assistant"),
      ("message", .obj [("content", .str "Reading PRP...")])],
    .obj [("type", .str "assistant"),
      ("message", .obj [("content", .str noopMarker)])],
    .obj [("type", .str "result"), ("subtype", .str "success"),
      ("result", .str noopMarker), ("cost_usd", .num 0),
      ("duration_ms", .num 1), ("num_turns", .num 1)] ]

/-- The canned whole-document json result of the no-op driver
(lines 174-188). -/
def noopJsonResult : JVal :=
  .obj [("type", .str "result"), ("subtype", .str "success"),
    ("result", .str noopMarker), ("is_error", .bool false),
    ("cost_usd", .num 0), ("duration_ms", .num 1),
    ("session_id", .str "noop-session")]

/-- The no-op driver branch of `run_model` (lines 148-191).  It only
prints, and always returns normally. -/
def run_noop (env : Env) (prompt : String) (interactive : Bool)
    (output_format : String) : List Ev :=
  if interactive then
    [.out "[noop] Interactive session start.\n", .out prompt,
      .out ("\n[noop] " ++ noopMarker)]
  else if output_format = "stream-json" then
    noopStreamEvents.map (fun e => .out (env.dumps e))
  else if output_format = "json" then
    [.out (env.dumps noopJsonResult)]
  else
    [.out noopMarker]

/-- `handle_json_output` (lines 89-95): the parsed document on success,
a synthetic error object plus a stderr diagnostic on failure.  The
Python diagnostic interpolates the exception text, which the model's
parse function does not carry; the model keeps the fixed part of the
message. -/
def handle_json_output (parse : String → Option JVal) (output : String) :
    JVal × List Ev :=
  match parse output with
  | some v => (v, [])
  | none =>
    (.obj [("error", .str "Failed to parse JSON output"), ("raw", .str output)],
      [.err "Error parsing JSON output"])

/-- One processed line of child stdout in `stream_json_output`: either
the two warning lines printed for a malformed line, or one yielded
event.  (Empty-after-strip lines produce nothing.) -/
inductive StreamItem where
  | warn (w1 w2 : String)
  | event (v : JVal)

/-- `stream_json_output` (lines 77-87), reified as the ordered list of
yields and warnings.  Each line is stripped; empty lines are skipped; a
line that parses yields exactly one event; a line that fails to parse
produces the two warning prints (the exception text interpolated in the
first one is not modelled) and is skipped. -/
def stream_json_output (parse : String → Option JVal) :
    List String → List StreamItem
  | [] => []
  | l :: rest =>
    let s := pyStrip l
    if s = "" then stream_json_output parse rest
    else
      match parse s with
      | some v => .event v :: stream_json_output parse rest
      | none =>
        .warn "Warning: Failed to parse JSON line"
            ("Line content: " ++ s) :: stream_json_output parse rest

/-- The events yielded by `stream_json_output` (the generator's yields,
without the warning side effects). -/
def streamEvents (items : List StreamItem) : List JVal :=
  items.filterMap (fun i => match i with | .event v => some v | .warn _ _ => none)

/-- Whether a `StreamItem` is a warning. -/
def StreamItem.isWarn : StreamItem → Bool
  | .warn _ _ => true
  | .event _ => false

/-- Executable resolution (lines 196-212): `shutil.which`, then on
Windows the PowerShell fallback. -/
def resolve_cli (env : Env) (cli : String) : Option String :=
  match env.which cli with
  | some p => some p
  | none => if env.isWindows then env.psResolve cli else none

/-- The effective executable name (line 192-193): the caller's `--cli`
override if given, else the driver's canonical name. -/
def effCli (driver : String) (cli : Option String) : String :=
  cli.getD (if pyLower driver = "codex" then "codex" else "claude")

/-- The per-driver command dispatch (lines 231-236): `none` means the
`sys.exit("Unknown driver: ...")` branch. -/
def build_cmd (d : String) (interactive : Bool) (fmt cli prompt : String) :
    Option (List String) :=
  if d = "codex" then some (_build_cmd_codex interactive fmt cli prompt)
  else if d = "claude" then some (_build_cmd_claude interactive fmt cli prompt)
  else none

/-- The trace produced for one streamed message (lines 280-315): the
recognised-shape progress lines on stderr, then the verbatim JSON echo
on stdout. -/
def streamItemTrace (env : Env) : StreamItem → List Ev
  | .warn w1 w2 => [.err w1, .err w2]
  | .event m => (env.progress m).map Ev.err ++ [.out (env.dumps m)]

/-- The headless execution paths of `run_model` (lines 270-377), after
the command has been built.  `prompt` and `fmt` are needed because the
json-mode `FileNotFoundError` handler re-enters the no-op driver with
the same output format.  `KeyboardInterrupt` (lines 327-330) is not
modelled: the embedding has no asynchronous signals. -/
def exec_headless (env : Env) (prompt : String) (fmt : String)
    (cmd : List String) : List Ev × PyResult :=
  if fmt = "stream-json" then
    -- lines 270-330: Popen raises are not caught here
    match env.exec cmd with
    | .fileNotFound => ([.spawn cmd], .exc "FileNotFoundError")
    | .osError _ => ([.spawn cmd], .exc "OSError")
    | .ok rc lines _ errTxt =>
      let outs := (stream_json_output env.parseJson lines).flatMap (streamItemTrace env)
      if rc = 0 then (.spawn cmd :: outs, .ret)
      else
        (.spawn cmd :: outs ++ [.err (runnerFailedMsg rc), .err ("Error: " ++ errTxt)],
          .exit rc)
  else if fmt = "json" then
    -- lines 332-374: only FileNotFoundError is caught around the launch
    match env.exec cmd with
    | .fileNotFound =>
      -- recursive call with driver="noop" (lines 340-346); with that
      -- driver `run_model` immediately takes its no-op branch
      (.spawn cmd :: .err (headlessNotFoundMsg (cmd.headD "")) ::
          run_noop env prompt false fmt, .ret)
    | .osError _ => ([.spawn cmd], .exc "OSError")
    | .ok rc _ raw errTxt =>
      if rc = 0 then
        let jd := (handle_json_output env.parseJson raw).1
        let perr := (handle_json_output env.parseJson raw).2
        let base := .spawn cmd :: perr ++ [.out (env.dumps jd)]
        if isResultDict jd then
          (base ++ (env.jsonSummary jd).map Ev.err, .ret)
        else (base, .ret)
      else
        (.spawn cmd :: [.err (runnerFailedMsg rc), .err ("Error: " ++ errTxt)],
          .exit rc)
  else
    -- lines 376-377: text mode, `subprocess.run(cmd, check=True)` with
    -- no handler: a non-zero exit raises CalledProcessError, a missing
    -- executable raises FileNotFoundError, and both escape run_model
    match env.exec cmd with
    | .ok rc _ _ _ =>
      if rc = 0 then ([.spawn cmd], .ret) else ([.spawn cmd], .exc "CalledProcessError")
    | .fileNotFound => ([.spawn cmd], .exc "FileNotFoundError")
    | .osError _ => ([.spawn cmd], .exc "OSError")

/-- `run_model` specialised to `interactive = False` (the source's
single function, taking the headless paths).  The two recursive
source-level calls that pass `driver="noop"` are replaced by the no-op
branch they immediately reach. -/
def run_model_headless (env : Env) (prompt driver : String)
    (cli : Option String) (fmt : String) : List Ev × PyResult :=
  let d := pyLower driver
  if d = "noop" then (run_noop env prompt false fmt, .ret)
  else
    let cliName := effCli driver cli
    match resolve_cli env cliName with
    | none =>
      if d = "codex" ∨ d = "claude" then
        -- lines 214-226: degrade to the no-op driver, same output format
        (.err (cliNotFoundMsg cliName) :: run_noop env prompt false fmt, .ret)
      else
        -- resolution failed for an unknown driver: the fallback block is
        -- skipped and command building reaches the sys.exit branch
        ([], .exitMsg (unknownDriverMsg d))
    | some p =>
      match build_cmd d false fmt p prompt with
      | none => ([], .exitMsg (unknownDriverMsg d))
      | some cmd => exec_headless env prompt fmt cmd

/-- `run_model` specialised to `interactive = True` (lines 238-267
after the shared resolution). -/
def run_model_interactive (env : Env) (prompt driver : String)
    (cli : Option String) (fmt : String) : List Ev × PyResult :=
  let d := pyLower driver
  if d = "noop" then (run_noop env prompt true fmt, .ret)
  else
    let cliName := effCli driver cli
    match resolve_cli env cliName with
    | none =>
      if d = "codex" ∨ d = "claude" then
        (.err (cliNotFoundMsg cliName) :: run_noop env prompt true fmt, .ret)
      else
        ([], .exitMsg (unknownDriverMsg d))
    | some p =>
      match build_cmd d true fmt p prompt with
      | none => ([], .exitMsg (unknownDriverMsg d))
      | some cmd =>
        -- lines 240-267: subprocess.run(cmd, check=True) with handlers
        match env.exec cmd with
        | .ok rc _ _ _ =>
          -- CalledProcessError from check=True is not caught
          if rc = 0 then ([.spawn cmd], .ret)
          else ([.spawn cmd], .exc "CalledProcessError")
        | .fileNotFound =>
          -- recursive call with driver="noop", same interactive flag
          (.spawn cmd :: .err (interactiveNotFoundMsg (cmd.headD "")) ::
              run_noop env prompt true fmt, .ret)
        | .osError e =>
          -- retry the same (lowered) driver headless in text mode with
          -- the resolved executable
          let (t, r) := run_model_headless env prompt d (some p) "text"
          (.spawn cmd :: .err (interactiveOsMsg e) :: t, r)

/-- `run_model` (lines 140-377). -/
def run_model (env : Env) (prompt driver : String) (cli : Option String)
    (interactive : Bool) (output_format : String) : List Ev × PyResult :=
  if interactive then run_model_interactive env prompt driver cli output_format
  else run_model_headless env prompt driver cli output_format

/-- The parsed command-line arguments (lines 381-408). -/
structure Args where
  prp_path : Option String
  prp : Option String
  interactive : Bool
  driver : String
  cli : Option String
  output_format : String

/-- Python truthiness of an optional string (`argparse` leaves missing
options as `None`; an empty string is also falsy). -/
def optTruthy (o : Option String) : Bool :=
  match o with
  | none => false
  | some s => s ≠ ""

/-- Splitting a character list on `/`, as `str.split("/")` does (the
empty list yields one empty component). -/
def splitSlash : List Char → List (List Char)
  | [] => [[]]
  | c :: rest =>
    if c = '/' then [] :: splitSlash rest
    else
      match splitSlash rest with
      | [] => [[c]]
      | g :: gs => (c :: g) :: gs

/-- Joining path components with `/`. -/
def joinSlash : List (List Char) → List Char
  | [] => []
  | [g] => g
  | g :: gs => g ++ '/' :: joinSlash gs

/-- One `Path.parent` step on a (resolved, absolute) string path: drop
the last `/`-separated component. -/
def parentPath (p : String) : String :=
  String.mk (joinSlash ((splitSlash p.data).dropLast))

/-- `ROOT` (line 35): three parents of the resolved script file. -/
def rootOfScript (script : String) : String :=
  parentPath (parentPath (parentPath script))

/-- The selected task-document path (line 413).  When neither option is
truthy the value is unreachable from `main`; the `"None"` default
mirrors Python's f-string rendering of `None`. -/
def prpPathOf (env : Env) (args : Args) : String :=
  if optTruthy args.prp_path then (args.prp_path.getD "")
  else rootOfScript env.scriptPath ++ "/PRPs/" ++ args.prp.getD "None" ++ ".md"

/-- `main` (lines 380-441).  Argument validation, then `os.chdir(ROOT)`,
then prompt assembly (which reads the document), then `run_model` inside
the top-level handler: `SystemExit` passes through, any other exception
writes the `erreur.txt` trace file next to `ROOT` and exits with
status 1. -/
def main (env : Env) (args : Args) : List Ev × PyResult :=
  if ¬ optTruthy args.prp_path ∧ ¬ optTruthy args.prp then
    ([], .exitMsg "Must supply --prp or --prp-path")
  else
    let prp_path := prpPathOf env args
    if env.pathExists prp_path = false then
      ([], .exitMsg ("PRP not found: " ++ prp_path))
    else
      let root := rootOfScript env.scriptPath
      let prompt := build_prompt env.readText prp_path
      let (t, r) := run_model env prompt args.driver args.cli
        args.interactive args.output_format
      match r with
      | .exc _ =>
        (Ev.chdir root :: Ev.fsRead prp_path :: t ++
            [.fileWrite (root ++ "/erreur.txt"),
              .err ("An unexpected error occurred. See '" ++ root ++
                "/erreur.txt' for details.")],
          .exit 1)
      | r => (Ev.chdir root :: Ev.fsRead prp_path :: t, r)

/-! Helper lemmas about the prompt flattening. -/

/-- No line produced by `pySplitlines` contains a line-boundary
character. -/
theorem pySplitlines_no_nl (cs : List Char) :
    ∀ g ∈ pySplitlines cs, ∀ c ∈ g, c ≠ '\n' ∧ c ≠ '\r' := by
  induction cs using pySplitlines.induct with
  | case1 => simp [pySplitlines]
  | case2 rest ih =>
    intro g hg
    rw [pySplitlines] at hg
    rcases List.mem_cons.1 hg with h | h
    · subst h; simp
    · exact ih g h
  | case3 c rest hne hcr ih =>
    intro g hg
    rw [pySplitlines] at hg
    rw [if_pos hcr] at hg
    rcases List.mem_cons.1 hg with h | h
    · subst h; simp
    · exact ih g h
    · exact hne
  | case4 c rest hne hcr hnil ih =>
    intro g hg
    rw [pySplitlines] at hg
    case x_1 => exact hne
    rw [if_neg hcr, hnil] at hg
    rcases List.mem_cons.1 hg with h | h
    · subst h
      intro x hx
      rcases List.mem_singleton.1 hx with rfl
      constructor <;> (intro h; apply hcr; simp [h])
    · simp at h
  | case5 c rest hne hcr g0 gs hcons ih =>
    intro g hg
    rw [pySplitlines] at hg
    case x_1 => exact hne
    rw [if_neg hcr, hcons] at hg
    rcases List.mem_cons.1 hg with h | h
    · subst h
      intro x hx
      rcases List.mem_cons.1 hx with rfl | hx
      · constructor <;> (intro h; apply hcr; simp [h])
      · exact ih g0 (by rw [hcons]; exact List.mem_cons_self _ _) x hx
    · exact ih g (by rw [hcons]; exact List.mem_cons_of_mem _ h)

/-- Membership in a space-joined list of lines. -/
theorem mem_joinSp {c : Char} :
    ∀ {gs : List (List Char)}, c ∈ joinSp gs → c = ' ' ∨ ∃ g ∈ gs, c ∈ g := by
  intro gs
  induction gs with
  | nil => intro h; simp [joinSp] at h
  | cons g gs ih =>
    cases gs with
    | nil =>
      intro h
      rw [joinSp] at h
      exact Or.inr ⟨g, List.mem_singleton_self g, h⟩
    | cons g' gs' =>
      intro h
      rw [joinSp] at h
      case x_1 => simp
      rcases List.mem_append.1 h with h | h
      · exact Or.inr ⟨g, List.mem_cons_self _ _, h⟩
      · rcases List.mem_cons.1 h with h | h
        · exact Or.inl h
        · rcases ih h with h | ⟨g2, hg2, hc2⟩
          · exact Or.inl h
          · exact Or.inr ⟨g2, List.mem_cons_of_mem _ hg2, hc2⟩

/-- Stripping only removes characters. -/
theorem mem_pyStripL {c : Char} {l : List Char} (h : c ∈ pyStripL l) : c ∈ l := by
  unfold pyStripL at h
  rw [List.mem_reverse] at h
  have h1 : c ∈ (l.dropWhile isPySpace).reverse :=
    (List.dropWhile_sublist _).subset h
  rw [List.mem_reverse] at h1
  exact (List.dropWhile_sublist _).subset h1

/-- The flattened prompt contains no newline character. -/
theorem flattenPrompt_no_nl (p : String) :
    ∀ c ∈ (flattenPrompt p).data, c ≠ '\n' := by
  intro c hc
  have hc' : c ∈ pyStripL (joinSp ((pySplitlines p.data).map pyStripL)) := hc
  rcases mem_joinSp (mem_pyStripL hc') with h | ⟨g, hg, hcg⟩
  · subst h; simp
  · rcases List.mem_map.1 hg with ⟨g0, hg0, rfl⟩
    exact (pySplitlines_no_nl _ g0 hg0 c (mem_pyStripL hcg)).1

/-! Claim theorems. -/

/-- C4: for every document, `build_prompt` returns exactly the fixed
preamble concatenated with the verbatim document text, so the prompt
length is the preamble length plus the document length. -/
theorem build_prompt_concat (readText : String → String) (prp_path : String) :
    build_prompt readText prp_path = META_HEADER ++ readText prp_path ∧
    (build_prompt readText prp_path).length =
      META_HEADER.length + (readText prp_path).length :=
  ⟨rfl, String.length_append _ _⟩

/-- C7: the codex command builder's prompt argument equals the
whitespace-joined, trimmed lines of the original prompt and contains no
newline character. -/
theorem codex_prompt_flattened (interactive : Bool)
    (output_format cli prompt : String) :
    _build_cmd_codex interactive output_format cli prompt =
      [cli, whitespaceJoinedTrimmedLines prompt] ∧
    (whitespaceJoinedTrimmedLines prompt).data.all (fun c => c != '\n') = true := by
  constructor
  · cases interactive <;> rfl
  · rw [List.all_eq_true]
    intro c hc
    simpa using flattenPrompt_no_nl prompt c hc

/-- C8: the claude headless command vector is, in order, the executable,
`-p`, the untransformed prompt, the fixed allow-list flag and value,
`--output-format`, and the requested format. -/
theorem claude_headless_cmd (output_format cli prompt : String) :
    _build_cmd_claude false output_format cli prompt =
      [cli, "-p", prompt, "--allowedTools", allowedToolsValue,
        "--output-format", output_format] := rfl

/-- C9: the codex command builder produces the identical command vector
in interactive and headless mode. -/
theorem codex_cmd_mode_independent (output_format cli prompt : String) :
    _build_cmd_codex true output_format cli prompt =
      _build_cmd_codex false output_format cli prompt := rfl

/-- C5: in stream-json mode every non-empty line that parses yields
exactly one event, in line order (the events are the in-order
`filterMap` of the parse over the stripped non-empty lines); every
non-empty line that fails to parse produces a warning and is skipped
without aborting the stream; in particular one well-formed line plus one
malformed line yield exactly one event and one warning. -/
theorem stream_json_line_discipline (parse : String → Option JVal)
    (lines : List String) :
    streamEvents (stream_json_output parse lines) =
      lines.filterMap (fun l => if pyStrip l = "" then none else parse (pyStrip l)) ∧
    (stream_json_output parse lines).countP StreamItem.isWarn =
      lines.countP (fun l => pyStrip l != "" && (parse (pyStrip l)).isNone) ∧
    (∀ l1 l2 v, pyStrip l1 ≠ "" → parse (pyStrip l1) = some v →
      pyStrip l2 ≠ "" → parse (pyStrip l2) = none →
      streamEvents (stream_json_output parse [l1, l2]) = [v] ∧
      (stream_json_output parse [l1, l2]).countP StreamItem.isWarn = 1) := by
  have hev : ∀ ls : List String,
      streamEvents (stream_json_output parse ls) =
        ls.filterMap (fun l => if pyStrip l = "" then none else parse (pyStrip l)) := by
    intro ls
    induction ls with
    | nil => rfl
    | cons l rest ih =>
      by_cases h : pyStrip l = ""
      · simp [stream_json_output, h, ih]
      · rcases hp : parse (pyStrip l) with _ | v
        · simp [stream_json_output, streamEvents, h, hp] at ih ⊢
          exact ih
        · simp [stream_json_output, streamEvents, h, hp] at ih ⊢
          exact ih
  have hwarn : ∀ ls : List String,
      (stream_json_output parse ls).countP StreamItem.isWarn =
        ls.countP (fun l => pyStrip l != "" && (parse (pyStrip l)).isNone) := by
    intro ls
    induction ls with
    | nil => rfl
    | cons l rest ih =>
      by_cases h : pyStrip l = ""
      · simp [stream_json_output, h, ih, List.countP_cons]
      · rcases hp : parse (pyStrip l) with _ | v
        · simp [stream_json_output, h, hp, List.countP_cons, StreamItem.isWarn, ih]
        · simp [stream_json_output, h, hp, List.countP_cons, StreamItem.isWarn, ih]
  refine ⟨hev lines, hwarn lines, ?_⟩
  intro l1 l2 v h1 hp1 h2 hp2
  constructor
  · rw [hev [l1, l2]]
    simp [h1, h2, hp1, hp2]
  · rw [hwarn [l1, l2]]
    simp [List.countP_cons, h1, h2, hp1, hp2]

/-- Witness for C5: a concrete parser fed one well-formed and one
malformed line produces exactly one event and one warning. -/
theorem stream_json_line_discipline_witness :
    streamEvents (stream_json_output
        (fun s => if s = "ok" then some (.num 1) else none) ["ok", "bad"]) =
      [.num 1] ∧
    (stream_json_output (fun s => if s = "ok" then some (.num 1) else none)
        ["ok", "bad"]).countP StreamItem.isWarn = 1 :=
  (stream_json_line_discipline (fun s => if s = "ok" then some (.num 1) else none)
      ["ok", "bad"]).2.2 "ok" "bad" (.num 1)
    (by decide) (by rfl) (by decide) (by rfl)

/-- C6: `handle_json_output` is total: a string that parses returns the
parsed document, and a parse failure returns (rather than raising) a
synthetic object whose `error` field is the fixed message and whose
`raw` field holds the original unparsed text. -/
theorem handle_json_total (parse : String → Option JVal) (output : String) :
    (∀ v, parse output = some v → (handle_json_output parse output).1 = v) ∧
    (parse output = none →
      jGetField (handle_json_output parse output).1 "error" =
        some (.str "Failed to parse JSON output") ∧
      jGetField (handle_json_output parse output).1 "raw" =
        some (.str output)) := by
  constructor
  · intro v h
    simp [handle_json_output, h]
  · intro h
    simp [handle_json_output, h, jGetField, List.lookup]

/-- Witness for C6: a failing parse of the string `"oops"` yields the
synthetic error object with the raw text. -/
theorem handle_json_total_witness :
    jGetField (handle_json_output (fun _ => none) "oops").1 "error" =
      some (.str "Failed to parse JSON output") ∧
    jGetField (handle_json_output (fun _ => none) "oops").1 "raw" =
      some (.str "oops") :=
  (handle_json_total (fun _ => none) "oops").2 rfl

/-! Concrete environments used by witnesses and counterexamples. -/

/-- An environment in which no executable resolves. -/
def envNone : Env where
  which := fun _ => none
  isWindows := false
  psResolve := fun _ => none
  exec := fun _ => .osError "unused"
  parseJson := fun _ => none
  dumps := fun _ => ""
  progress := fun _ => []
  jsonSummary := fun _ => []
  pathExists := fun _ => true
  readText := fun _ => "doc body"
  scriptPath := "/repo/PRPs/scripts/prp_runner.py"

/-- An environment in which the name `mycli` resolves to
`/opt/bin/mycli` and every child succeeds. -/
def envOverride : Env :=
  { envNone with
    which := fun s => if s = "mycli" then some "/opt/bin/mycli" else none
    exec := fun _ => .ok 0 [] "" "" }

/-- An environment in which `codex` resolves and every child exits with
code 2. -/
def envFail : Env :=
  { envNone with
    which := fun s => if s = "codex" then some "/bin/codex" else none
    exec := fun _ => .ok 2 [] "" "boom" }

/-- Every headless execution path launches the built command first. -/
theorem exec_headless_head (env : Env) (prompt fmt : String) (cmd : List String) :
    (exec_headless env prompt fmt cmd).1.head? = some (.spawn cmd) := by
  unfold exec_headless
  rcases hx : env.exec cmd with ⟨rc, sl, so, se⟩ | _ | m <;>
    by_cases h1 : fmt = "stream-json" <;> by_cases h2 : fmt = "json" <;>
      simp [h1, h2, hx] <;> (repeat' split) <;> simp

/-- C1: when the driver is one of the two real drivers and executable
resolution fails, `run_model` neither raises nor exits: it prints the
fallback warning and completes via the no-op driver with the same
interactive flag and output format. -/
theorem missing_cli_degrades_to_noop (env : Env) (prompt driver : String)
    (cli : Option String) (interactive : Bool) (output_format : String)
    (hreal : pyLower driver = "codex" ∨ pyLower driver = "claude")
    (hres : resolve_cli env (effCli driver cli) = none) :
    run_model env prompt driver cli interactive output_format =
      (.err (cliNotFoundMsg (effCli driver cli)) ::
        run_noop env prompt interactive output_format, .ret) := by
  have hnoop : ¬ pyLower driver = "noop" := by
    rcases hreal with h | h <;> rw [h] <;> decide
  cases interactive
  · simp [run_model, run_model_headless, hnoop, hres, hreal]
  · simp [run_model, run_model_interactive, hnoop, hres, hreal]

/-- Witness for C1: with nothing on the search path, a `codex` run
degrades to the no-op driver and returns normally. -/
theorem missing_cli_degrades_to_noop_witness :
    run_model envNone "p" "codex" none false "text" =
      (.err (cliNotFoundMsg (effCli "codex" none)) ::
        run_noop envNone "p" false "text", .ret) :=
  missing_cli_degrades_to_noop envNone "p" "codex" none false "text"
    (Or.inl (by decide)) rfl

/-- Counterexample for C3: an explicit `--cli mycli` override is not
used verbatim; `shutil.which` is consulted and the looked-up path
`/opt/bin/mycli` replaces the override in the launched command. -/
theorem cli_override_replaced_counterexample :
    (run_model envOverride "hi" "codex" (some "mycli") false "text").1.head? =
      some (.spawn ["/opt/bin/mycli", "hi"]) ∧
    ("/opt/bin/mycli" : String) ≠ "mycli" := by
  constructor
  · decide
  · decide

/-- C3 as amended: a caller-supplied override is still passed through
the path lookup, and when the lookup succeeds the looked-up path — not
the override itself — becomes the executable of the built command. -/
theorem cli_override_resolved (env : Env) (prompt c p output_format : String)
    (hw : env.which c = some p) :
    (run_model env prompt "codex" (some c) false output_format).1.head? =
      some (.spawn (_build_cmd_codex false output_format p prompt)) ∧
    (_build_cmd_codex false output_format p prompt).head? = some p := by
  have hres : resolve_cli env c = some p := by simp [resolve_cli, hw]
  constructor
  · have hd : pyLower "codex" = "codex" := by decide
    simp only [run_model, run_model_headless, hd, effCli, Option.getD, build_cmd]
    simp [hres, exec_headless_head]
  · rfl

/-- Witness for C3 as amended: the override `mycli` resolves to
`/opt/bin/mycli`, which heads the launched command. -/
theorem cli_override_resolved_witness :
    (run_model envOverride "hi" "codex" (some "mycli") false "text").1.head? =
      some (.spawn (_build_cmd_codex false "text" "/opt/bin/mycli" "hi")) ∧
    (_build_cmd_codex false "text" "/opt/bin/mycli" "hi").head? =
      some "/opt/bin/mycli" :=
  cli_override_resolved envOverride "hi" "mycli" "/opt/bin/mycli" "text" (by decide)

/-- A headless text-mode run of the real `codex` driver, child exiting
with code 2, selected by `--prp-path doc.md`. -/
def argsFail : Args where
  prp_path := some "doc.md"
  prp := none
  interactive := false
  driver := "codex"
  cli := none
  output_format := "text"

/-- Counterexample for C2: with the child exiting with code 2 in
headless text mode, the tool does not exit with 2 — it exits with 1 and
writes the diagnostic trace file, because `subprocess.run(cmd,
check=True)` raises `CalledProcessError` and the top-level handler in
`main` treats it as an unexpected error. -/
theorem text_mode_verbatim_exit_counterexample :
    (main envFail argsFail).2 = .exit 1 ∧
    (main envFail argsFail).2 ≠ .exit 2 ∧
    Ev.fileWrite "/repo/erreur.txt" ∈ (main envFail argsFail).1 := by
  refine ⟨by decide, by decide, by decide⟩

/-- C2 as amended: in a headless text-mode run of a real driver whose
child exits with a non-zero code, `CalledProcessError` escapes
`run_model`; `main`'s top-level handler then writes the `erreur.txt`
trace file and the tool exits with status 1 regardless of the child's
code. -/
theorem text_child_failure_exits_one (env : Env) (args : Args)
    (pth : String) (rc : Int) (sl : List String) (so se : String)
    (hsel : optTruthy args.prp_path = true)
    (hex : env.pathExists (prpPathOf env args) = true)
    (hint : args.interactive = false)
    (hfmt : args.output_format = "text")
    (hdrv : pyLower args.driver = "codex" ∨ pyLower args.driver = "claude")
    (hres : resolve_cli env (effCli args.driver args.cli) = some pth)
    (hexec : ∀ cmd, env.exec cmd = .ok rc sl so se)
    (hrc : rc ≠ 0) :
    (run_model env (build_prompt env.readText (prpPathOf env args)) args.driver
        args.cli args.interactive args.output_format).2 = .exc "CalledProcessError" ∧
    (main env args).2 = .exit 1 ∧
    Ev.fileWrite (rootOfScript env.scriptPath ++ "/erreur.txt") ∈ (main env args).1 := by
  have hnoop : ¬ pyLower args.driver = "noop" := by
    rcases hdrv with h | h <;> rw [h] <;> decide
  have h2 : (run_model env (build_prompt env.readText (prpPathOf env args))
      args.driver args.cli args.interactive args.output_format).2 =
        .exc "CalledProcessError" := by
    rw [hint, hfmt]
    rcases hdrv with hd | hd <;>
      simp [run_model, run_model_headless, hnoop, hres, hd, build_cmd,
        exec_headless, hexec, hrc]
  rcases hrm : run_model env (build_prompt env.readText (prpPathOf env args))
      args.driver args.cli args.interactive args.output_format with ⟨t, r⟩
  have hr : r = .exc "CalledProcessError" := by rw [← h2, hrm]
  subst hr
  refine ⟨rfl, ?_, ?_⟩
  · simp [main, hsel, hex, hrm]
  · simp [main, hsel, hex, hrm]

/-- Witness for C2 as amended: the concrete failing run exits with 1
and writes the trace file. -/
theorem text_child_failure_exits_one_witness :
    (main envFail argsFail).2 = .exit 1 ∧
    Ev.fileWrite (rootOfScript envFail.scriptPath ++ "/erreur.txt") ∈
      (main envFail argsFail).1 :=
  (text_child_failure_exits_one envFail argsFail "/bin/codex" 2 [] "" "boom"
    (by decide) (by decide) rfl rfl (Or.inl (by decide)) (by decide)
    (fun _ => rfl) (by decide)).2

/-- Arguments selecting the no-op driver headlessly, used to witness the
ordering of `main`'s effects. -/
def argsNoop : Args where
  prp_path := some "x.md"
  prp := none
  interactive := false
  driver := "noop"
  cli := none
  output_format := "text"

/-- C10: once argument validation passes and the document exists, the
first two effects of `main` are, in this order, the change of working
directory to the repository root (three parents of the script file) and
the read of the task document; every other effect — including any child
launch — comes after. -/
theorem main_chdir_first (env : Env) (args : Args)
    (hsel : optTruthy args.prp_path = true ∨ optTruthy args.prp = true)
    (hex : env.pathExists (prpPathOf env args) = true) :
    (main env args).1.take 2 =
      [Ev.chdir (rootOfScript env.scriptPath), Ev.fsRead (prpPathOf env args)] := by
  rcases hrm : run_model env (build_prompt env.readText (prpPathOf env args))
      args.driver args.cli args.interactive args.output_format with ⟨t, r⟩
  rcases hsel with h | h <;> cases r <;> simp [main, h, hex, hrm]

/-- Witness for C10: a concrete run whose trace starts with the
directory change followed by the document read. -/
theorem main_chdir_first_witness :
    (main envNone argsNoop).1.take 2 =
      [Ev.chdir (rootOfScript envNone.scriptPath),
        Ev.fsRead (prpPathOf envNone argsNoop)] :=
  main_chdir_first envNone argsNoop (Or.inl (by decide)) (by decide)

end PrpRunner
